import Mathlib

/-!
Shallow embedding of the MyLD2410 driver header (src/src/MyLD2410.h).

The repository ships only the class header: the `ValuesArray` struct with its
inline copy-assignment operator and `forEach`, the `Response` enum, the
`SensorData` struct, and the private state fields with their default member
initializers are all present verbatim; method bodies (`isDataValid`, the
getters, the command correlator) are only declared.  Definitions below that
embed inline code are translated from the header; definitions for the missing
bodies are modelled from the specification and say so in their doc comments.

C++ `byte` is embedded as `Nat` (values 0..255; none of the verified
properties performs arithmetic that could overflow a byte), and
`unsigned long` as `Nat` with subtraction used only when the minuend is at
least the subtrahend, matching the monotone-clock usage in the driver.
-/

namespace MyLD2410

/-- Embeds `enum Response { FAIL = 0, ACK, DATA }` from the header. -/
inductive Response where
  | FAIL
  | ACK
  | DATA
deriving DecidableEq

/-- The underlying C++ enumerator value: `FAIL = 0`, then `ACK = 1`,
`DATA = 2` by the default successor rule. -/
def Response.toNat : Response → Nat
  | .FAIL => 0
  | .ACK => 1
  | .DATA => 2

/-- The C++ implicit contextual conversion of the enum value to `bool`:
nonzero enumerator values convert to `true`, zero to `false`. -/
def Response.toBool (r : Response) : Bool :=
  r.toNat != 0

/-- Embeds `struct ValuesArray { byte values[9]; byte N; ... }`:
a 9-slot backing store plus an explicit element count. -/
structure ValuesArray where
  values : Fin 9 → Nat
  N : Nat
deriving DecidableEq

/-- Embeds `ValuesArray::operator=`:

```
ValuesArray &operator=(const ValuesArray &other) {
  if (this != &other) {
    N = other.N;
    for (byte i = 0; i < N; i++) values[i] = other.values[i];
  }
  return *this;
}
```

`sameObject` stands for the address comparison `this == &other`.  When the
objects differ, `N` is set first, so the loop bound is `other.N`: slot `i`
receives `other.values[i]` for `i < other.N` and keeps the old contents
otherwise.  The function returns the updated `*this`. -/
def ValuesArray.assign (a other : ValuesArray) (sameObject : Bool) : ValuesArray :=
  if sameObject then a
  else
    { N := other.N
      values := fun i => if i.val < other.N then other.values i else a.values i }

/-- Embeds the call trace of `ValuesArray::forEach`:

```
void forEach(void (*func)(const byte &val)) const {
  for (byte i = 0; i < N; i++) func(values[i]);
}
```

The loop invokes the callback on `values[0] .. values[N-1]` in that order;
the returned list is the sequence of arguments passed to `func`.  The `else`
branch is unreachable whenever `N ≤ 9` holds (the struct invariant); in C++
an index past the backing store would be undefined behaviour. -/
def ValuesArray.forEachCalls (a : ValuesArray) : List Nat :=
  (List.range a.N).map fun i => if h : i < 9 then a.values ⟨i, h⟩ else 0

/-- Embeds `struct SensorData` from the header. -/
structure SensorData where
  status : Nat
  timestamp : Nat
  mTargetDistance : Nat
  mTargetSignal : Nat
  sTargetDistance : Nat
  sTargetSignal : Nat
  distance : Nat
  mTargetSignals : ValuesArray
  sTargetSignals : ValuesArray
deriving DecidableEq

/-- Embeds the private state of `class MyLD2410` (the fields relevant to the
claims; the raw receive buffers and the `Stream` handle are the transport
boundary and carry no verified property). -/
structure State where
  sData : SensorData
  stationaryThresholds : ValuesArray
  movingThresholds : ValuesArray
  maxRange : Nat
  noOne_window : Nat
  version : Nat
  bufferSize : Nat
  MAC : Fin 6 → Nat
  fineRes : Int
  isEnhanced : Bool
  isConfig : Bool
  timeout : Nat
  dataLifespan : Nat
deriving DecidableEq

/-- The state produced by the default member initializers in the header:
`maxRange = 0`, `noOne_window = 0`, `version = 0`, `bufferSize = 0`,
`fineRes = -1`, `isEnhanced = false`, `isConfig = false`, `timeout = 2000`,
`dataLifespan = 500`.  `sData`, the threshold arrays and `MAC` have no
initializer in the header, so they are parameters here. -/
def initState (sd : SensorData) (st mv : ValuesArray) (mac : Fin 6 → Nat) : State :=
  { sData := sd
    stationaryThresholds := st
    movingThresholds := mv
    maxRange := 0
    noOne_window := 0
    version := 0
    bufferSize := 0
    MAC := mac
    fineRes := -1
    isEnhanced := false
    isConfig := false
    timeout := 2000
    dataLifespan := 500 }

/-- Modelled from the spec: the body of `MyLD2410::isDataValid` is not in the
sources (only its declaration).  Per the spec, accessors consult
`(now − SensorData.timestamp) < dataLifespan`.  `now` is the monotone
millisecond clock; queries occur at or after the stamped receipt time. -/
def isDataValid (s : State) (now : Nat) : Bool :=
  now - s.sData.timestamp < s.dataLifespan

/-- Modelled from the spec: the body of `presenceDetected` is not in the
sources.  Per the spec, a detection query reports detected exactly when the
stored status flags say detected and the snapshot is still fresh; once the
gap exceeds `dataLifespan` every detection query reports not-detected
regardless of the stored flags. -/
def presenceDetected (s : State) (now : Nat) : Bool :=
  isDataValid s now && (s.sData.status != 0)

/-- Modelled from the spec: the telemetry decode path is not in the sources.
Per the spec, a successful telemetry decode replaces `sData` atomically and
sets its timestamp to the time of receipt, resetting the staleness
comparison to fresh. -/
def recordTelemetry (s : State) (d : SensorData) (now : Nat) : State :=
  { s with sData := { d with timestamp := now } }

/-- Modelled from the spec: the body of `getMAC` is not in the sources (only
its declaration and doc comment).  It returns a pointer to the stored
6-byte `MAC` array, embedded here as returning the array itself. -/
def getMAC (s : State) : Fin 6 → Nat :=
  s.MAC

/-- The byte sequence designated by a pointer to the 6-byte MAC array. -/
def macList (m : Fin 6 → Nat) : List Nat :=
  List.ofFn m

/-- Outcome of the command/ack correlator wait. -/
inductive AckOutcome where
  | ok (payload : List Nat)
  | timedOut
deriving DecidableEq

/-- Modelled from the spec: the correlator's bounded busy-wait is not in the
sources.  Per the spec, after writing the command the driver repeatedly
pumps the framer; a frame whose code matches the pending request resolves
the wait with its payload, and once the elapsed wait exceeds `timeout`
the wait returns `Timeout`.  `arrival e` is the matching-ack payload, if
any, decoded at elapsed millisecond `e`. -/
def waitLoop (arrival : Nat → Option (List Nat)) (timeout e : Nat) : AckOutcome :=
  if timeout < e then .timedOut
  else
    match arrival e with
    | some p => .ok p
    | none => waitLoop arrival timeout (e + 1)
termination_by timeout + 1 - e
decreasing_by omega

/-- Modelled from the spec: a send whose command frame has been written
starts the bounded wait at elapsed time 0, bounded by the state's
`timeout` field. -/
def send (s : State) (arrival : Nat → Option (List Nat)) : AckOutcome :=
  waitLoop arrival s.timeout 0

/-- If no matching ack ever arrives, the wait loop times out. -/
theorem waitLoop_none (arrival : Nat → Option (List Nat))
    (h : ∀ e, arrival e = none) (timeout : Nat) :
    ∀ e, waitLoop arrival timeout e = .timedOut := by
  intro e
  induction e using waitLoop.induct arrival timeout with
  | case1 e he => rw [waitLoop]; simp [he]
  | case2 e he p hp => rw [h] at hp; cases hp
  | case3 e he hp ih => rw [waitLoop]; simp [he, h, ih]

/-! ## Shared concrete values used by witnesses and the counterexample -/

/-- A concrete `ValuesArray` with `N = 2` whose slot 1 holds 6. -/
def vaTwo : ValuesArray :=
  { values := fun i => if i.val = 1 then 6 else 5, N := 2 }

/-- A concrete `ValuesArray` with `N = 1` whose slots all hold 7. -/
def vaOne : ValuesArray :=
  { values := fun _ => 7, N := 1 }

/-- A concrete all-zero `SensorData` with detected status and timestamp 1000. -/
def sdDetected : SensorData :=
  { status := 3
    timestamp := 1000
    mTargetDistance := 0
    mTargetSignal := 0
    sTargetDistance := 0
    sTargetSignal := 0
    distance := 0
    mTargetSignals := vaOne
    sTargetSignals := vaOne }

/-! ## Claims -/

/-- C1: assigning a distinct `ValuesArray` `b` into `a` copies exactly `b.N`
elements: afterwards the count equals `b.N`, every slot below `b.N` holds the
corresponding element of `b`, and every slot at or above `b.N` keeps the
contents `a` had before, so the full 9-byte backing storage is never
copied. -/
theorem assign_copies_exactly_N (a b : ValuesArray) (hb : b.N ≤ 9)
    (i j : Fin 9) (hi : i.val < b.N) (hj : b.N ≤ j.val) :
    (ValuesArray.assign a b false).N = b.N ∧
    (ValuesArray.assign a b false).values i = b.values i ∧
    (ValuesArray.assign a b false).values j = a.values j := by
  refine ⟨rfl, ?_, ?_⟩
  · simp [ValuesArray.assign, hi]
  · simp [ValuesArray.assign, Nat.not_lt.mpr hj]

/-- Witness for C1 at the concrete pair `vaTwo`, `vaOne` and indices 0, 1. -/
theorem assign_copies_exactly_N_witness :
    (ValuesArray.assign vaTwo vaOne false).N = vaOne.N ∧
    (ValuesArray.assign vaTwo vaOne false).values 0 = vaOne.values 0 ∧
    (ValuesArray.assign vaTwo vaOne false).values 1 = vaTwo.values 1 :=
  assign_copies_exactly_N vaTwo vaOne (by decide) 0 1 (by decide) (by decide)

/-- C2 counterexample: the claim says that after assigning the smaller-count
`vaOne` into `vaTwo`, no slot at index between the new count and 8 still holds
its old contents; yet slot 1 still holds the 6 that `vaTwo` stored there. -/
theorem stale_slot_remains :
    vaOne.N < vaTwo.N ∧ vaOne.N ≤ 1 ∧
    (ValuesArray.assign vaTwo vaOne false).values 1 = vaTwo.values 1 := by
  refine ⟨by decide, by decide, ?_⟩
  simp [ValuesArray.assign, vaOne, vaTwo]

/-- C2 amended: assigning a smaller-count `b` into `a` leaves the slots at or
above the new count physically unchanged, but they are beyond the count and so
not part of the value: the result has count `b.N` and its `forEach` trace is
exactly that of `b`, so no stale element is observable through the
count-respecting interface. -/
theorem assign_no_observable_stale (a b : ValuesArray) (hb : b.N ≤ 9)
    (hlt : b.N < a.N) (i : Fin 9) (hi : b.N ≤ i.val) :
    (ValuesArray.assign a b false).N = b.N ∧
    (ValuesArray.assign a b false).forEachCalls = b.forEachCalls ∧
    (ValuesArray.assign a b false).values i = a.values i := by
  refine ⟨rfl, ?_, ?_⟩
  · unfold ValuesArray.forEachCalls
    have hN : (ValuesArray.assign a b false).N = b.N := rfl
    rw [hN]
    refine List.map_congr_left fun k hk => ?_
    rw [List.mem_range] at hk
    have hk9 : k < 9 := lt_of_lt_of_le hk hb
    simp [ValuesArray.assign, hk9, hk]
  · simp [ValuesArray.assign, Nat.not_lt.mpr hi]

/-- Witness for the amended C2 at the concrete pair `vaTwo`, `vaOne` and
index 1. -/
theorem assign_no_observable_stale_witness :
    (ValuesArray.assign vaTwo vaOne false).N = vaOne.N ∧
    (ValuesArray.assign vaTwo vaOne false).forEachCalls = vaOne.forEachCalls ∧
    (ValuesArray.assign vaTwo vaOne false).values 1 = vaTwo.values 1 :=
  assign_no_observable_stale vaTwo vaOne (by decide) (by decide) 1 (by decide)

/-- C4: the count of a `ValuesArray` never exceeds the fixed capacity 9, and
the assignment operator preserves this bound: whenever both operands satisfy
it, so does the result, whichever branch of the self-assignment guard is
taken. -/
theorem assign_preserves_capacity (a b : ValuesArray) (sameObject : Bool)
    (ha : a.N ≤ 9) (hb : b.N ≤ 9) :
    (ValuesArray.assign a b sameObject).N ≤ 9 := by
  cases sameObject <;> simpa [ValuesArray.assign]

/-- Witness for C4 at the concrete pair `vaTwo`, `vaOne`. -/
theorem assign_preserves_capacity_witness :
    (ValuesArray.assign vaTwo vaOne false).N ≤ 9 :=
  assign_preserves_capacity vaTwo vaOne false (by decide) (by decide)

/-- C5: self-assignment is an identity: the `this != &other` guard makes the
operator leave the object unchanged and return that very object. -/
theorem self_assign_identity (a : ValuesArray) :
    ValuesArray.assign a a true = a ∧
    (ValuesArray.assign a a true).N = a.N ∧
    (∀ i : Fin 9, (ValuesArray.assign a a true).values i = a.values i) :=
  ⟨rfl, rfl, fun _ => rfl⟩

/-- C6: `forEach` invokes the callback exactly `N` times, on
`values[0] .. values[N-1]` in increasing index order, and never reads a slot
at index `N` or beyond: the call trace has length `N`, its `i`-th entry is
`values[i]`, and it is unchanged by altering any slot at or above `N`. -/
theorem forEach_visits_first_N (a : ValuesArray) (ha : a.N ≤ 9)
    (i : Nat) (hi : i < a.N) (hi9 : i < 9) (b : ValuesArray) (hN : b.N = a.N)
    (hvals : ∀ j : Fin 9, j.val < a.N → b.values j = a.values j) :
    a.forEachCalls.length = a.N ∧
    a.forEachCalls.getD i 0 = a.values ⟨i, hi9⟩ ∧
    b.forEachCalls = a.forEachCalls := by
  refine ⟨by simp [ValuesArray.forEachCalls], ?_, ?_⟩
  · have hl : i < a.forEachCalls.length := by
      simpa [ValuesArray.forEachCalls] using hi
    rw [List.getD_eq_getElem a.forEachCalls 0 hl]
    simp [ValuesArray.forEachCalls, hi9]
  · unfold ValuesArray.forEachCalls
    rw [hN]
    refine List.map_congr_left fun k hk => ?_
    rw [List.mem_range] at hk
    have hk9 : k < 9 := lt_of_lt_of_le hk ha
    simpa [hk9] using hvals ⟨k, hk9⟩ hk

/-- Witness for C6 at the concrete array `vaTwo`, index 1, and a second array
agreeing with `vaTwo` below its count but differing above it. -/
theorem forEach_visits_first_N_witness :
    vaTwo.forEachCalls.length = vaTwo.N ∧
    vaTwo.forEachCalls.getD 1 0 = vaTwo.values ⟨1, by decide⟩ ∧
    ValuesArray.forEachCalls { values := fun k => if k.val < 2 then vaTwo.values k else 99, N := 2 }
      = vaTwo.forEachCalls :=
  forEach_visits_first_N vaTwo (by decide) 1 (by decide) (by decide)
    { values := fun k => if k.val < 2 then vaTwo.values k else 99, N := 2 }
    (by decide) (by decide)

/-- C3: for a stored snapshot whose status flags say detected and whose
timestamp is `t`, a detection query at `t + dataLifespan + 1` reports
not-detected, a query at `t + dataLifespan - 1` reports detected, and a
successful telemetry decode resets the comparison to fresh: querying right
after the decode reports detected again. -/
theorem staleness_policy (s : State) (t : Nat)
    (hstat : s.sData.status ≠ 0) (ht : s.sData.timestamp = t)
    (hL : 1 ≤ s.dataLifespan) (d : SensorData) (now : Nat) (hd : d.status ≠ 0) :
    presenceDetected s (t + s.dataLifespan + 1) = false ∧
    presenceDetected s (t + s.dataLifespan - 1) = true ∧
    presenceDetected (recordTelemetry s d now) now = true := by
  refine ⟨?_, ?_, ?_⟩
  · simp only [presenceDetected, isDataValid, ht]
    have h1 : t + s.dataLifespan + 1 - t = s.dataLifespan + 1 := by omega
    have h2 : ¬s.dataLifespan + 1 < s.dataLifespan := by omega
    simp [h1, h2]
  · simp only [presenceDetected, isDataValid, ht]
    have h1 : t + s.dataLifespan - 1 - t = s.dataLifespan - 1 := by omega
    have h2 : s.dataLifespan - 1 < s.dataLifespan := by omega
    simp [h1, h2, hstat]
  · simp only [presenceDetected, isDataValid, recordTelemetry]
    have h0 : 0 < s.dataLifespan := hL
    simp [hd, h0]

/-- Witness for C3 at a concrete detected snapshot stamped at 1000 with the
default 500 ms lifespan, and a later decode received at 5000. -/
theorem staleness_policy_witness :
    presenceDetected (initState sdDetected vaOne vaOne fun _ => 0)
      (1000 + (initState sdDetected vaOne vaOne fun _ => 0).dataLifespan + 1) = false ∧
    presenceDetected (initState sdDetected vaOne vaOne fun _ => 0)
      (1000 + (initState sdDetected vaOne vaOne fun _ => 0).dataLifespan - 1) = true ∧
    presenceDetected
      (recordTelemetry (initState sdDetected vaOne vaOne fun _ => 0) sdDetected 5000)
      5000 = true :=
  staleness_policy (initState sdDetected vaOne vaOne fun _ => 0) 1000
    (by decide) rfl (by decide) sdDetected 5000 (by decide)

/-- C7: the correlator timeout is 2000 ms by default, and with that default a
send whose matching acknowledgement never arrives returns the timeout outcome
once the 2000 ms wait has elapsed. -/
theorem default_timeout_2000 (sd : SensorData) (st mv : ValuesArray)
    (mac : Fin 6 → Nat) (arrival : Nat → Option (List Nat))
    (hnone : ∀ e, arrival e = none) :
    (initState sd st mv mac).timeout = 2000 ∧
    send (initState sd st mv mac) arrival = .timedOut := by
  exact ⟨rfl, waitLoop_none arrival hnone 2000 0⟩

/-- Witness for C7 at concrete state parameters and the everywhere-silent
arrival stream. -/
theorem default_timeout_2000_witness :
    (initState sdDetected vaOne vaOne fun _ => 0).timeout = 2000 ∧
    send (initState sdDetected vaOne vaOne fun _ => 0) (fun _ => none) = .timedOut :=
  default_timeout_2000 sdDetected vaOne vaOne (fun _ => 0) (fun _ => none)
    (fun _ => rfl)

/-- C8: the device model's `dataLifespan` is 500 ms by default, before any
explicit change by the consumer. -/
theorem default_dataLifespan_500 (sd : SensorData) (st mv : ValuesArray)
    (mac : Fin 6 → Nat) :
    (initState sd st mv mac).dataLifespan = 500 :=
  rfl

/-- C9: `check()` is declared to return `Response`, whose only values are
`FAIL`, `ACK` and `DATA`, encoded with `FAIL = 0` and `ACK`, `DATA` nonzero;
hence the result converts to the boolean `false` exactly when it is
`FAIL`. -/
theorem check_result_encoding :
    (∀ r : Response, r = .FAIL ∨ r = .ACK ∨ r = .DATA) ∧
    Response.toNat .FAIL = 0 ∧
    Response.toNat .ACK ≠ 0 ∧
    Response.toNat .DATA ≠ 0 ∧
    (∀ r : Response, Response.toBool r = false ↔ r = .FAIL) := by
  refine ⟨fun r => ?_, rfl, by decide, by decide, fun r => ?_⟩ <;>
    cases r <;> simp [Response.toBool, Response.toNat]

/-- C10: the device model stores the MAC address as a 6-byte array, and
`getMAC` returns that very array: the sequence it designates has exactly 6
bytes. -/
theorem getMAC_six_bytes (s : State) :
    getMAC s = s.MAC ∧ (macList (getMAC s)).length = 6 :=
  ⟨rfl, by simp [macList]⟩

end MyLD2410
